import Mathlib

/-!
Verification of the Comio repository against its specification.

The repository's `src/` tree contains the Next.js web pages (dashboard,
project detail, sandbox chat, incident detail); those are embedded below as
element trees. The Sandbox Orchestration & Tool-Use Agent Core described by
the specification (SandboxController, FileOpsGateway, CommandExecutor,
PolicyEnforcer, ToolAgentLoop, AuditLog) is not present under `src/` — only
design documents reference it — so those components are modelled from the
specification's own words, each such definition marked
`Modelled from the spec:`.
-/

namespace Comio

/-! ## Sandbox lifecycle (spec section 4.1) -/

/-- Modelled from the spec: the Sandbox `state` field,
`state ∈ {provisioning, running, stopped, destroying, destroyed, error}`.
The SandboxController implementation is missing from `src/`. -/
inductive SandboxState where
  | provisioning
  | running
  | stopped
  | destroying
  | destroyed
  | error
  deriving DecidableEq, Repr

/-- Modelled from the spec: lifecycle events driving the SandboxController
state machine: completion callbacks of `create` (`provisionSucceeded`,
`provisionFailed`), the `start`/`stop`/`destroy` operations, completion of
destruction, and an infrastructure fault (the spec's "error reachable from
any state"). -/
inductive LifecycleEvent where
  | provisionSucceeded
  | provisionFailed
  | start
  | stop
  | destroy
  | destroyFinished
  | fault
  deriving DecidableEq, Repr

/-- Modelled from the spec: the SandboxController transition function.
`none` means the event is rejected in that state and the state is unchanged.
Spec: `provisioning → running` on success, `error` on failure; `stop` only
from `running`; `start` only from `stopped`; `destroy` is "safe to call on
any non-provisioning state" and moves to `destroying`, then `destroyed`
(terminal); a Sandbox in `error` "requires explicit recovery
(destroy-and-recreate)"; infrastructure faults move any live Sandbox to
`error`. -/
def lifecycleStep : SandboxState → LifecycleEvent → Option SandboxState
  | .provisioning, .provisionSucceeded => some .running
  | .provisioning, .provisionFailed => some .error
  | .provisioning, .fault => some .error
  | .provisioning, _ => none
  | .running, .stop => some .stopped
  | .running, .destroy => some .destroying
  | .running, .fault => some .error
  | .running, _ => none
  | .stopped, .start => some .running
  | .stopped, .destroy => some .destroying
  | .stopped, .fault => some .error
  | .stopped, _ => none
  | .destroying, .destroyFinished => some .destroyed
  | .destroying, .fault => some .error
  | .destroying, _ => none
  | .error, .destroy => some .destroying
  | .error, .fault => some .error
  | .error, _ => none
  | .destroyed, _ => none

/-- The transition graph of spec section 4.1:
`provisioning → running → {stopped, error}`; `stopped → running`;
`running|stopped → destroying → destroyed`; `error` reachable from any
live state (via a fault, or `provisionFailed` while provisioning); recovery
from `error` is destroy-and-recreate, so `error → destroying`. `destroyed`
has no outgoing edges. -/
def graphEdge : SandboxState → SandboxState → Prop
  | .provisioning, .running => True
  | .running, .stopped => True
  | .stopped, .running => True
  | .running, .destroying => True
  | .stopped, .destroying => True
  | .error, .destroying => True
  | .destroying, .destroyed => True
  | .provisioning, .error => True
  | .running, .error => True
  | .stopped, .error => True
  | .destroying, .error => True
  | .error, .error => True
  | _, _ => False

instance (a b : SandboxState) : Decidable (graphEdge a b) := by
  cases a <;> cases b <;> simp [graphEdge] <;> infer_instance

/-- Modelled from the spec: applying a whole sequence of lifecycle events;
a rejected event leaves the state unchanged. -/
def runEvents (s : SandboxState) : List LifecycleEvent → SandboxState
  | [] => s
  | e :: es => runEvents ((lifecycleStep s e).getD s) es

/-! ## Sandbox creation (spec sections 4.1 and 8) -/

/-- Modelled from the spec: errors of the `create` lifecycle operation.
`alreadyExists` for a second `create` on a live Sandbox; `invalidState`
when the Sandbox must first be destroyed (spec: "a Sandbox already in
`error` must be destroyed before being recreated"). -/
inductive CreateErr where
  | alreadyExists
  | invalidState
  deriving DecidableEq, Repr

/-- Modelled from the spec: calls issued to the ContainerRuntimeClient
(the external collaborator that creates/starts/stops/destroys isolated
execution units and volumes). -/
inductive RuntimeCall where
  | createContainer
  | createVolume
  | startContainer
  | stopContainer
  | removeContainer
  | removeVolume
  deriving DecidableEq, Repr

/-- Modelled from the spec: the outcome of a `create` call: its result,
the Sandbox record afterwards (`none` when no Sandbox exists), and the
container-runtime calls it issued. -/
structure CreateOutcome where
  result : Except CreateErr Unit
  newState : Option SandboxState
  runtimeCalls : List RuntimeCall
  deriving Repr

/-- Modelled from the spec: `create(project, mode)` — "allocates container +
persistent volume ... Returns immediately in `provisioning` ... Idempotency:
a second `create` call for a Sandbox already in `provisioning`/`running`
fails fast with `AlreadyExists` rather than double-provisioning." The
SandboxController implementation is missing from `src/`. `cur` is the
current Sandbox record for the project (`none` if absent). -/
def create (cur : Option SandboxState) : CreateOutcome :=
  match cur with
  | none => ⟨.ok (), some .provisioning, [.createContainer, .createVolume]⟩
  | some .destroyed => ⟨.ok (), some .provisioning, [.createContainer, .createVolume]⟩
  | some .provisioning => ⟨.error .alreadyExists, some .provisioning, []⟩
  | some .running => ⟨.error .alreadyExists, some .running, []⟩
  | some .stopped => ⟨.error .alreadyExists, some .stopped, []⟩
  | some .error => ⟨.error .invalidState, some .error, []⟩
  | some .destroying => ⟨.error .invalidState, some .destroying, []⟩

/-! ## FileOpsGateway (spec section 4.2) -/

/-- Modelled from the spec: canonicalization of one path, segment by
segment, relative to the workspace root. The accumulator holds the resolved
segments in reverse; `".."` pops one; popping past the root means the path
escapes the workspace root, which yields `none`. Empty segments and `"."`
are dropped. -/
def canonAux : List String → List String → Option (List String)
  | acc, [] => some acc.reverse
  | acc, "" :: rest => canonAux acc rest
  | acc, "." :: rest => canonAux acc rest
  | acc, ".." :: rest =>
    match acc with
    | [] => none
    | _ :: acc2 => canonAux acc2 rest
  | acc, seg :: rest => canonAux (seg :: acc) rest

/-- Split a character list on `/`, accumulating the current segment in
reverse in `cur`. -/
def splitSlashAux (cur : List Char) : List Char → List String
  | [] => [String.mk cur.reverse]
  | c :: rest =>
    if c = '/' then String.mk cur.reverse :: splitSlashAux [] rest
    else splitSlashAux (c :: cur) rest

/-- Modelled from the spec: "every path argument is canonicalized and must
resolve within the sandbox's workspace root". A path is split on `/` and
resolved; `none` means it escapes the workspace root. An absolute path
(leading `/`) addresses the host filesystem, outside the workspace root,
so it also resolves to `none`. The FileOpsGateway implementation is missing
from `src/`. -/
def canonicalize (p : String) : Option (List String) :=
  match p.toList with
  | '/' :: _ => none
  | cs => canonAux [] (splitSlashAux [] cs)

/-- The sandbox workspace filesystem, as an association list from
canonical paths to file contents. -/
def FS : Type := List (List String × String)

/-- Lookup of a canonical path in the workspace filesystem. -/
def fsLookup (fs : FS) (p : List String) : Option String :=
  match fs with
  | [] => none
  | (q, c) :: rest => if q = p then some c else fsLookup rest p

/-- Store content at a canonical path, replacing any previous content. -/
def fsStore (fs : FS) (p : List String) (c : String) : FS :=
  match fs with
  | [] => [(p, c)]
  | (q, d) :: rest => if q = p then (p, c) :: rest else (q, d) :: fsStore rest p c

/-- Modelled from the spec: the file operations of the FileOpsGateway:
`listFiles(path, recursive)`, `readFile(path)`, `writeFile(path, content)`,
`searchFiles(query, glob)`. -/
inductive FileOp where
  | listFiles (path : String) (recursive : Bool)
  | readFile (path : String)
  | writeFile (path : String) (content : String)
  | searchFiles (query : String) (glob : String)
  deriving DecidableEq, Repr

/-- The path argument of a file operation; for `searchFiles` the `glob`
is the path-shaped argument that is canonicalized. -/
def FileOp.pathArg : FileOp → String
  | .listFiles p _ => p
  | .readFile p => p
  | .writeFile p _ => p
  | .searchFiles _ g => g

/-- Modelled from the spec: errors of the FileOpsGateway: `PathViolation`
(security; spec section 7), `SizeLimitExceeded`, a not-found error, and a
rejection when the Sandbox is not running. -/
inductive FileErr where
  | pathViolation
  | sizeLimitExceeded
  | notFound
  | sandboxNotRunning
  deriving DecidableEq, Repr

/-- Modelled from the spec: "Binary content is detected and
`readFile`/`searchFiles` skip or flag it rather than returning raw bytes
as text": a read either returns text or flags binary content. -/
inductive ReadResult where
  | text (s : String)
  | binaryFlagged
  deriving DecidableEq, Repr

/-- Content is treated as binary when it contains a NUL character. -/
def isBinary (s : String) : Bool :=
  s.toList.any (fun c => c.toNat = 0)

/-- Whether the second list starts with the first. -/
def leadsWith : List Char → List Char → Bool
  | [], _ => true
  | _ :: _, [] => false
  | a :: as, b :: bs => a == b && leadsWith as bs

/-- Whether `needle` occurs as a contiguous sublist. -/
def containsSub (needle : List Char) : List Char → Bool
  | [] => leadsWith needle []
  | c :: rest => leadsWith needle (c :: rest) || containsSub needle rest

/-- Successful results of the file operations. -/
inductive FileResult where
  | listing (paths : List (List String))
  | readOut (r : ReadResult)
  | wrote
  | searchOut (hits : List (List String))
  deriving DecidableEq, Repr

/-- Modelled from the spec: the per-project policy record
`{canModifyCode, canModifyInfra, maxRiskLevel, commandAllowlist,
blockedFilePatterns, maxFileSizeBytes, requireApprovalFor}`. -/
structure Policy where
  canModifyCode : Bool
  canModifyInfra : Bool
  maxRiskLevel : Nat
  commandAllowlist : List String
  blockedFilePatterns : List String
  maxFileSizeBytes : Nat
  requireApprovalFor : List String
  deriving DecidableEq, Repr

/-- A sample per-project policy used for concrete evaluations. -/
def samplePolicy : Policy :=
  ⟨true, false, 2, ["git status", "pytest"], ["infra/"], 1048576, ["deploy"]⟩

/-- The outcome of one file operation: its result, the workspace
filesystem afterwards, and the canonical paths on which an underlying
operation was actually executed (empty when nothing was executed). -/
structure FileOutcome where
  result : Except FileErr FileResult
  fs : FS
  executedOn : List (List String)

/-- Whether `sub` is `p` or lies underneath directory `p`. -/
def underPath (p sub : List String) : Bool :=
  match p, sub with
  | [], _ => true
  | _, [] => false
  | a :: ps, b :: qs => a == b && underPath ps qs

/-- Modelled from the spec: one FileOpsGateway operation. The path argument
is canonicalized first and a resolution escaping the workspace root "fails
with `PathViolation` and is never executed, regardless of Sandbox state" —
so the path check precedes the state check and touches neither the
filesystem nor the container. File operations run inside the sandbox's
container, hence require the Sandbox to be `running`. `writeFile` "enforces
a maximum content size (policy-configurable); oversized writes fail with
`SizeLimitExceeded`". -/
def runFileOp (pol : Policy) (st : SandboxState) (fs : FS) (op : FileOp) : FileOutcome :=
  match canonicalize op.pathArg with
  | none => ⟨.error .pathViolation, fs, []⟩
  | some cp =>
    if st = .running then
      match op with
      | .listFiles _ recursive =>
        let all := fs.map (fun e => e.1)
        let under := all.filter (fun q => underPath cp q)
        ⟨.ok (.listing (if recursive then under else under.filter (fun q => q.length = cp.length + 1))), fs, [cp]⟩
      | .readFile _ =>
        match fsLookup fs cp with
        | none => ⟨.error .notFound, fs, [cp]⟩
        | some c => ⟨.ok (.readOut (if isBinary c then .binaryFlagged else .text c)), fs, [cp]⟩
      | .writeFile _ content =>
        if content.toList.length > pol.maxFileSizeBytes then
          ⟨.error .sizeLimitExceeded, fs, []⟩
        else
          ⟨.ok .wrote, fsStore fs cp content, [cp]⟩
      | .searchFiles query _ =>
        let hits := (fs.filter (fun e => underPath cp e.1 && !isBinary e.2 && containsSub query.toList e.2.toList)).map (fun e => e.1)
        ⟨.ok (.searchOut hits), fs, [cp]⟩
    else
      ⟨.error .sandboxNotRunning, fs, []⟩

/-! ## CommandExecutor (spec section 4.3) -/

/-- Modelled from the spec: the result of running one command in the
container, "capturing stdout, stderr, and exit code". -/
structure CommandResult where
  stdout : String
  stderr : String
  exitCode : Int
  deriving DecidableEq, Repr

/-- Modelled from the spec: errors of `exec`: `PolicyDenied` for a command
absent from the allowlist, `CommandTimeout` when the bound is exceeded. -/
inductive ExecErr where
  | policyDenied
  | commandTimeout
  deriving DecidableEq, Repr

/-- Modelled from the spec: the tool result the agent receives from a
command execution — `PolicyDenied` is "reported to the agent as a failed
tool result so it can adapt" (spec section 7). -/
inductive ToolOutcome where
  | output (r : CommandResult)
  | policyDenied
  | timedOut
  deriving DecidableEq, Repr

/-- The outcome of one `exec` call: its result, the tool result fed back
to the agent, and the commands that were actually dispatched to the
container (empty when nothing reached the container). -/
structure ExecOutcome where
  result : Except ExecErr CommandResult
  toolResult : ToolOutcome
  containerDispatches : List String
  deriving Repr

/-- Modelled from the spec: `exec(sandboxId, command, timeout)` — "Commands
are matched against the project's `commandAllowlist` before dispatch;
non-matching commands fail with `PolicyDenied` without ever reaching the
container." The container's behaviour is the opaque `runtime` function,
returning the captured result and the time the command took; "On timeout,
the running process is forcibly terminated and the result reports
`timed_out`". The CommandExecutor implementation is missing from `src/`. -/
def exec (runtime : String → CommandResult × Nat) (pol : Policy)
    (command : String) (timeout : Nat) : ExecOutcome :=
  if pol.commandAllowlist.contains command then
    let (res, took) := runtime command
    if took > timeout then
      ⟨.error .commandTimeout, .timedOut, [command]⟩
    else
      ⟨.ok res, .output res, [command]⟩
  else
    ⟨.error .policyDenied, .policyDenied, []⟩

/-! ## ToolAgentLoop (spec section 4.5) -/

/-- Modelled from the spec: a completion-service response is either
terminal text or a batch of tool-call requests. -/
inductive ModelResponse where
  | text (s : String)
  | toolCalls (calls : List String)
  deriving DecidableEq, Repr

/-- Modelled from the spec: per-turn hard stop configuration — "a maximum
iteration count (e.g., 25 tool-call rounds) and a maximum cumulative
token/cost budget per turn". -/
structure LoopConfig where
  maxIterations : Nat
  tokenBudget : Nat
  deriving DecidableEq, Repr

/-- Modelled from the spec: how a turn ended: terminal text from the
model, or a halt with the partial response "flagged `loop_limit_exceeded`".
-/
inductive TurnEnd where
  | textResponse (s : String)
  | loopLimitExceeded
  deriving DecidableEq, Repr

/-- The result of one agent turn: how it ended and how many completion
rounds ran. -/
structure TurnResult where
  ending : TurnEnd
  rounds : Nat
  deriving DecidableEq, Repr

/-- Modelled from the spec: the ToolAgentLoop recursion. `svc` is the
opaque completion service: given the round number it yields the model's
response and its token cost. `fuel` counts the remaining iterations,
`round` the rounds performed, `spent` the cumulative token cost. Running
out of iterations, or exceeding the token budget, "halts the loop and
returns a partial response flagged `loop_limit_exceeded` rather than
looping indefinitely". -/
def loopAux (svc : Nat → ModelResponse × Nat) (budget : Nat) :
    Nat → Nat → Nat → TurnResult
  | 0, round, _ => ⟨.loopLimitExceeded, round⟩
  | fuel + 1, round, spent =>
    if spent > budget then ⟨.loopLimitExceeded, round⟩
    else
      match svc round with
      | (.text s, _) => ⟨.textResponse s, round + 1⟩
      | (.toolCalls _, cost) => loopAux svc budget fuel (round + 1) (spent + cost)

/-- Modelled from the spec: `runAgentTurn` drives the conversation against
the completion service under the configured hard stops. The ToolAgentLoop
implementation is missing from `src/`. -/
def runAgentTurn (svc : Nat → ModelResponse × Nat) (cfg : LoopConfig) : TurnResult :=
  loopAux svc cfg.tokenBudget cfg.maxIterations 0 0

/-! ## AuditLog (spec sections 4.7 and 3) -/

/-- Modelled from the spec: the AuditEntry record
`actor`, `action`, `target`, `timestamp`, `outcome`. -/
structure AuditEntry where
  actor : String
  action : String
  target : String
  timestamp : Nat
  outcome : String
  deriving DecidableEq, Repr

/-- Modelled from the spec: the mutating operations the AuditLog records:
"every PolicyEnforcer decision, every file write/delete, every command
execution, and every git push is recorded exactly once". -/
inductive MutatingOp where
  | policyDecision (action target : String)
  | fileWrite (path content : String)
  | fileDelete (path : String)
  | commandRun (command : String)
  | gitPush (branch : String)
  deriving DecidableEq, Repr

/-- The orchestrator state carried across mutating operations: the
workspace filesystem and the audit log. -/
structure CoreState where
  fs : FS
  audit : List AuditEntry

/-- A short description of an operation's outcome, for its audit entry. -/
def describeResult : Except FileErr FileResult → String
  | .ok _ => "ok"
  | .error .pathViolation => "PathViolation"
  | .error .sizeLimitExceeded => "SizeLimitExceeded"
  | .error .notFound => "NotFound"
  | .error .sandboxNotRunning => "SandboxNotRunning"

/-- Modelled from the spec: applying one mutating operation to the
orchestrator state at time `now`, recording exactly one AuditEntry for it
in the append-only AuditLog ("Append-only; never mutated or deleted";
"Every denial and failure is recorded in AuditLog regardless of where it
is ultimately surfaced"). Policy decisions and pushes are evaluated
against `pol`; file writes run through the FileOpsGateway; deletes remove
the path; command runs go through the CommandExecutor. -/
def applyOp (runtime : String → CommandResult × Nat) (pol : Policy)
    (st : SandboxState) (actor : String) (now : Nat)
    (s : CoreState) (op : MutatingOp) : CoreState :=
  match op with
  | .policyDecision action target =>
    let verdict := if pol.blockedFilePatterns.contains target then "Deny" else "Allow"
    ⟨s.fs, s.audit ++ [⟨actor, action, target, now, verdict⟩]⟩
  | .fileWrite path content =>
    let out := runFileOp pol st s.fs (.writeFile path content)
    ⟨out.fs, s.audit ++ [⟨actor, "writeFile", path, now, describeResult out.result⟩]⟩
  | .fileDelete path =>
    match canonicalize path with
    | none => ⟨s.fs, s.audit ++ [⟨actor, "deleteFile", path, now, "PathViolation"⟩]⟩
    | some cp =>
      ⟨s.fs.filter (fun e => e.1 ≠ cp), s.audit ++ [⟨actor, "deleteFile", path, now, "ok"⟩]⟩
  | .commandRun command =>
    let out := exec runtime pol command 30
    let verdict :=
      match out.result with
      | .ok _ => "ok"
      | .error .policyDenied => "PolicyDenied"
      | .error .commandTimeout => "CommandTimeout"
    ⟨s.fs, s.audit ++ [⟨actor, "exec", command, now, verdict⟩]⟩
  | .gitPush branch =>
    ⟨s.fs, s.audit ++ [⟨actor, "gitPush", branch, now, "ok"⟩]⟩

/-- Modelled from the spec: a whole sequence of mutating operations,
applied in order; the clock advances by one per operation. -/
def applyOps (runtime : String → CommandResult × Nat) (pol : Policy)
    (st : SandboxState) (actor : String) :
    Nat → CoreState → List MutatingOp → CoreState
  | _, s, [] => s
  | now, s, op :: ops =>
    applyOps runtime pol st actor (now + 1) (applyOp runtime pol st actor now s op) ops

/-! ## Web pages under `src/apps/web` and `src/unnamed/part_000`

The React pages are embedded as element trees. Tags keep the JSX component
or HTML element name; icon components carry an `Icon` suffix. Only the
props that the pages actually pass are modelled as attributes. JSX text
interpolation such as `Project {id}` becomes consecutive text children
`"Project "` and `id`, matching the rendered text nodes. -/

/-- An attribute of a rendered element: the props the pages pass
(`className`, `variant`, `size`, `placeholder`, `value`, `key`), the
boolean `disabled` prop, and an opaque marker for the `onChange` handler. -/
inductive Attr where
  | className (s : String)
  | variant (s : String)
  | size (s : String)
  | placeholder (s : String)
  | value (s : String)
  | key (s : String)
  | disabled
  | onChange
  deriving DecidableEq, Repr

/-- A rendered element tree: an element with tag, attributes and children,
or a text node. -/
inductive Node where
  | el (tag : String) (attrs : List Attr) (children : List Node)
  | txt (s : String)

mutual

/-- Every node of a tree: the node itself and all its descendants. -/
def allNodes : Node → List Node
  | .txt s => [.txt s]
  | .el tag attrs children => .el tag attrs children :: allNodesList children

/-- `allNodes` over a list of sibling trees, in order. -/
def allNodesList : List Node → List Node
  | [] => []
  | n :: ns => allNodes n ++ allNodesList ns

end

/-- The strings of the immediate text children of a node list. -/
def directTexts (ns : List Node) : List String :=
  ns.filterMap fun n =>
    match n with
    | .txt s => some s
    | .el _ _ _ => none

/-- The `i`-th child of an element. -/
def childAt (n : Node) (i : Nat) : Option Node :=
  match n with
  | .txt _ => none
  | .el _ _ children => children[i]?

/-- The text children of every `h1` element in a tree, flattened in
document order. -/
def headingTexts (n : Node) : List String :=
  (allNodes n).flatMap fun m =>
    match m with
    | .el "h1" _ children => directTexts children
    | _ => []

/-- The class string of the footer line of the sandbox chat page. -/
def footerClass : String := "text-xs text-muted-foreground mt-2"

/-- The text children of every `p` element carrying `footerClass`,
flattened in document order. -/
def footerTexts (n : Node) : List String :=
  (allNodes n).flatMap fun m =>
    match m with
    | .el "p" attrs children =>
      if attrs.contains (.className footerClass) then directTexts children else []
    | _ => []

/-- The text children of every `CardTitle` element, flattened in document
order. -/
def cardTitleTexts (n : Node) : List String :=
  (allNodes n).flatMap fun m =>
    match m with
    | .el "CardTitle" _ children => directTexts children
    | _ => []

/-- The text children of every `div` styled as a card's big value
(`text-2xl font-bold`), flattened in document order. -/
def cardValueTexts (n : Node) : List String :=
  (allNodes n).flatMap fun m =>
    match m with
    | .el "div" attrs children =>
      if attrs.contains (.className "text-2xl font-bold") then directTexts children else []
    | _ => []

/-- Whether a node is the `Send` icon. -/
def isSendIcon : Node → Bool
  | .el "SendIcon" _ _ => true
  | _ => false

/-- An `Input` element must carry `disabled`; every other node passes. -/
def inputDisabledAt : Node → Bool
  | .el "Input" attrs _ => attrs.contains .disabled
  | _ => true

/-- A `Button` element containing the `Send` icon must carry `disabled`;
every other node passes. -/
def sendButtonDisabledAt : Node → Bool
  | .el "Button" attrs children =>
    if children.any isSendIcon then attrs.contains .disabled else true
  | _ => true

mutual

/-- A tree with the contents of the id-bearing slots erased: the children
of every `h1` heading and of the sandbox chat footer `p` are replaced by
`[]`, leaving every other part of the tree intact. -/
def stripIdSlots : Node → Node
  | .txt s => .txt s
  | .el tag attrs children =>
    if tag == "h1" || (tag == "p" && attrs.contains (.className footerClass)) then
      .el tag attrs []
    else
      .el tag attrs (stripIdSlotsList children)

/-- `stripIdSlots` over a list of sibling trees. -/
def stripIdSlotsList : List Node → List Node
  | [] => []
  | n :: ns => stripIdSlots n :: stripIdSlotsList ns

end

/-- `ProjectDetailPage` from
`src/apps/web/src/app/projects/[id]/page.tsx`: heading `Project {id}`,
three metric cards (Health, Sandbox, Incidents) and a Recent Activity
card. -/
def ProjectDetailPage (id : String) : Node :=
  .el "div" [.className "space-y-6"] [
    .el "div" [.className "flex items-center justify-between"] [
      .el "div" [] [
        .el "div" [.className "flex items-center gap-3"] [
          .el "h1" [.className "text-3xl font-bold tracking-tight"] [
            .txt "Project ", .txt id],
          .el "Badge" [.variant "secondary"] [.txt "Active"]],
        .el "p" [.className "text-muted-foreground mt-1"] [
          .txt "Project overview, metrics, and sandbox management."]],
      .el "Button" [] [.txt "Open Sandbox"]],
    .el "div" [.className "grid gap-6 md:grid-cols-2 lg:grid-cols-3"] [
      .el "Card" [] [
        .el "CardHeader" [] [
          .el "CardTitle" [.className "text-sm font-medium"] [.txt "Health"]],
        .el "CardContent" [] [
          .el "div" [.className "text-2xl font-bold text-green-500"] [.txt "Healthy"],
          .el "p" [.className "text-xs text-muted-foreground mt-1"] [
            .txt "All metrics within normal range"]]],
      .el "Card" [] [
        .el "CardHeader" [] [
          .el "CardTitle" [.className "text-sm font-medium"] [.txt "Sandbox"]],
        .el "CardContent" [] [
          .el "div" [.className "text-2xl font-bold"] [.txt "Stopped"],
          .el "p" [.className "text-xs text-muted-foreground mt-1"] [
            .txt "Start sandbox to use AI assistant"]]],
      .el "Card" [] [
        .el "CardHeader" [] [
          .el "CardTitle" [.className "text-sm font-medium"] [.txt "Incidents"]],
        .el "CardContent" [] [
          .el "div" [.className "text-2xl font-bold"] [.txt "0"],
          .el "p" [.className "text-xs text-muted-foreground mt-1"] [
            .txt "No active incidents"]]]],
    .el "Card" [] [
      .el "CardHeader" [] [
        .el "CardTitle" [] [.txt "Recent Activity"]],
      .el "CardContent" [] [
        .el "p" [.className "text-sm text-muted-foreground"] [
          .txt "Project activity and events will appear here."]]]]

/-- `SandboxPage` from `src/apps/web/src/app/projects/[id]/page.tsx`:
the sandbox chat client component. `id` comes from the route params and
`message` is the `useState` string bound to the chat input. The chat
`Input` and the send `Button` both carry `disabled`. -/
def SandboxPage (id message : String) : Node :=
  .el "div" [.className "flex h-[calc(100vh-8rem)] gap-4"] [
    .el "Card" [.className "w-80 flex-shrink-0 flex flex-col"] [
      .el "CardHeader" [.className "pb-3"] [
        .el "div" [.className "flex items-center justify-between"] [
          .el "CardTitle" [.className "text-sm font-medium flex items-center gap-2"] [
            .el "FolderTreeIcon" [.className "h-4 w-4"] [],
            .txt "Files"],
          .el "Badge" [.variant "outline", .className "text-xs"] [
            .el "GitBranchIcon" [.className "h-3 w-3 mr-1"] [],
            .txt "main"]]],
      .el "Separator" [] [],
      .el "CardContent" [.className "flex-1 p-3"] [
        .el "ScrollArea" [.className "h-full"] [
          .el "p" [.className "text-xs text-muted-foreground py-8 text-center"] [
            .txt "Start the sandbox to browse project files."]]]],
    .el "Card" [.className "flex-1 flex flex-col"] [
      .el "CardHeader" [.className "pb-3"] [
        .el "div" [.className "flex items-center justify-between"] [
          .el "div" [.className "flex items-center gap-3"] [
            .el "CardTitle" [.className "text-sm font-medium"] [.txt "Sandbox Chat"],
            .el "Badge" [.variant "outline",
                .className "text-xs bg-red-500/10 text-red-500 border-red-500/20"] [
              .txt "Stopped"]],
          .el "div" [.className "flex items-center gap-2"] [
            .el "Button" [.variant "ghost", .size "icon", .className "h-8 w-8"] [
              .el "RefreshCwIcon" [.className "h-3.5 w-3.5"] []],
            .el "Button" [.variant "outline", .size "sm", .className "h-8"] [
              .el "RocketIcon" [.className "h-3 w-3 mr-1.5"] [],
              .txt "Deploy"],
            .el "Button" [.variant "outline", .size "sm", .className "h-8"] [
              .el "PlayIcon" [.className "h-3 w-3 mr-1.5"] [],
              .txt "Start"]]]],
      .el "Separator" [] [],
      .el "ScrollArea" [.className "flex-1 p-4"] [
        .el "div" [.className "flex flex-col items-center justify-center h-full py-16"] [
          .el "div" [.className "flex items-center justify-center h-12 w-12 rounded-lg bg-orange-500/10 mb-4"] [
            .el "span" [.className "text-orange-500 font-bold text-lg"] [.txt "C"]],
          .el "h3" [.className "text-lg font-medium"] [.txt "Comio AI Assistant"],
          .el "p" [.className "text-sm text-muted-foreground mt-1 text-center max-w-sm"] [
            .txt "Start the sandbox to chat with your AI assistant. It can create projects from scratch, edit code, run tests, and deploy — all through conversation."]]],
      .el "Separator" [] [],
      .el "div" [.className "p-4"] [
        .el "div" [.className "flex gap-2"] [
          .el "Input" [
            .placeholder "Ask Comio to create, edit, deploy, or explain your code...",
            .value message, .onChange, .className "flex-1", .disabled] [],
          .el "Button" [.size "icon", .disabled] [
            .el "SendIcon" [.className "h-4 w-4"] []]],
        .el "p" [.className footerClass] [
          .txt "Project ", .txt id, .txt " · Start the sandbox to begin chatting"]]]]

/-- `IncidentDetailPage` from `src/unnamed/part_000`: heading
`Incident #{id}`, AI Diagnosis and Proposed Fix cards, and a Timeline
card. -/
def IncidentDetailPage (id : String) : Node :=
  .el "div" [.className "space-y-6"] [
    .el "div" [.className "flex items-center justify-between"] [
      .el "div" [] [
        .el "div" [.className "flex items-center gap-3"] [
          .el "h1" [.className "text-3xl font-bold tracking-tight"] [
            .txt "Incident #", .txt id],
          .el "Badge" [.variant "secondary"] [.txt "Pending"]],
        .el "p" [.className "text-muted-foreground mt-1"] [
          .txt "Incident details, AI diagnosis, and proposed fixes."]],
      .el "Button" [.variant "outline"] [.txt "Open in Sandbox"]],
    .el "div" [.className "grid gap-6 lg:grid-cols-2"] [
      .el "Card" [] [
        .el "CardHeader" [] [
          .el "CardTitle" [] [.txt "AI Diagnosis"]],
        .el "CardContent" [] [
          .el "p" [.className "text-sm text-muted-foreground"] [
            .txt "AI diagnosis will appear here once the RCA engine analyzes this incident."]]],
      .el "Card" [] [
        .el "CardHeader" [] [
          .el "CardTitle" [] [.txt "Proposed Fix"]],
        .el "CardContent" [] [
          .el "p" [.className "text-sm text-muted-foreground"] [
            .txt "The fix generator will propose code changes here for review and approval."]]]],
    .el "Separator" [] [],
    .el "Card" [] [
      .el "CardHeader" [] [
        .el "CardTitle" [] [.txt "Timeline"]],
      .el "CardContent" [] [
        .el "p" [.className "text-sm text-muted-foreground"] [
          .txt "Incident event timeline will be populated as events occur."]]]]

/-- One entry of the `stats` array at the top of
`src/apps/web/src/app/dashboard/page.tsx`. -/
structure StatCard where
  title : String
  value : String
  icon : String
  trend : String
  deriving DecidableEq, Repr

/-- The `stats` array of `src/apps/web/src/app/dashboard/page.tsx`. -/
def stats : List StatCard := [
  ⟨"Total Incidents (24h)", "—", "AlertTriangleIcon", "Waiting for data"⟩,
  ⟨"Active Incidents", "0", "ActivityIcon", "All clear"⟩,
  ⟨"Resolved (24h)", "—", "CheckCircle2Icon", "Waiting for data"⟩,
  ⟨"Avg. Resolution Time", "—", "ClockIcon", "Waiting for data"⟩]

/-- The card rendered for one `stats` entry inside the dashboard's stats
grid (`stats.map(...)` in the source). -/
def statCardNode (s : StatCard) : Node :=
  .el "Card" [.key s.title] [
    .el "CardHeader" [.className "flex flex-row items-center justify-between space-y-0 pb-2"] [
      .el "CardTitle" [.className "text-sm font-medium"] [.txt s.title],
      .el s.icon [.className "h-4 w-4 text-muted-foreground"] []],
    .el "CardContent" [] [
      .el "div" [.className "text-2xl font-bold"] [.txt s.value],
      .el "p" [.className "text-xs text-muted-foreground mt-1"] [.txt s.trend]]]

/-- The stats grid of the dashboard: the four stat cards. -/
def dashboardStatsGrid : Node :=
  .el "div" [.className "grid gap-4 md:grid-cols-2 lg:grid-cols-4"]
    (stats.map statCardNode)

/-- `DashboardPage` from `src/apps/web/src/app/dashboard/page.tsx`. It
takes no props (modelled as a `Unit` argument): header, the stats grid,
the Active Sandboxes / Deployments grid, and the Recent Incidents card. -/
def DashboardPage (_u : Unit) : Node :=
  .el "div" [.className "space-y-6"] [
    .el "div" [] [
      .el "h1" [.className "text-3xl font-bold tracking-tight"] [.txt "Dashboard"],
      .el "p" [.className "text-muted-foreground mt-1"] [
        .txt "Overview of your projects, deployments, and incident status."]],
    dashboardStatsGrid,
    .el "div" [.className "grid gap-4 lg:grid-cols-2"] [
      .el "Card" [] [
        .el "CardHeader" [] [
          .el "CardTitle" [.className "text-lg"] [.txt "Active Sandboxes"]],
        .el "CardContent" [] [
          .el "div" [.className "flex items-center gap-2 text-sm text-muted-foreground"] [
            .el "div" [.className "h-2 w-2 rounded-full bg-muted"] [],
            .txt "No sandboxes running. Create or import a project to get started."]]],
      .el "Card" [] [
        .el "CardHeader" [] [
          .el "CardTitle" [.className "text-lg"] [.txt "Deployments"]],
        .el "CardContent" [] [
          .el "div" [.className "flex items-center gap-2 text-sm text-muted-foreground"] [
            .el "div" [.className "h-2 w-2 rounded-full bg-muted"] [],
            .txt "No active deployments. Deploy a project from its sandbox."]]]],
    .el "Card" [] [
      .el "CardHeader" [.className "flex flex-row items-center justify-between"] [
        .el "CardTitle" [.className "text-lg"] [.txt "Recent Incidents"],
        .el "Badge" [.variant "secondary"] [.txt "0 new"]],
      .el "CardContent" [] [
        .el "p" [.className "text-sm text-muted-foreground"] [
          .txt "No incidents yet. Once you deploy a project, Comio automatically monitors it and surfaces issues here in real-time."]]]]

/-! ## Theorems -/

/-- C1: for every file operation (`listFiles`, `readFile`, `writeFile`,
`searchFiles`) and every Sandbox state, including `provisioning`, a path
argument whose canonicalization resolves outside the workspace root makes
the operation fail with `PathViolation`, leaving the filesystem untouched
and executing no underlying operation; in particular
`writeFile("../../etc/passwd", "x")` fails with `PathViolation` in every
state. -/
theorem fileOp_pathViolation_never_executes
    (pol : Policy) (st : SandboxState) (fs : FS) (op : FileOp)
    (h : canonicalize op.pathArg = none) :
    runFileOp pol st fs op = ⟨.error .pathViolation, fs, []⟩ ∧
    runFileOp pol st fs (.writeFile "../../etc/passwd" "x") =
      ⟨.error .pathViolation, fs, []⟩ := by
  constructor
  · simp [runFileOp, h]
  · have hc : canonicalize (FileOp.pathArg (.writeFile "../../etc/passwd" "x")) = none := by
      decide
    simp [runFileOp, hc]

/-- Witness for C1: the escaping write from the spec, attempted while the
Sandbox is still `provisioning`, fails with `PathViolation` and executes
nothing. -/
theorem fileOp_pathViolation_never_executes_witness :
    runFileOp samplePolicy .provisioning [] (.writeFile "../../etc/passwd" "x") =
      ⟨.error .pathViolation, [], []⟩ :=
  (fileOp_pathViolation_never_executes samplePolicy .provisioning []
    (.writeFile "../../etc/passwd" "x") (by decide)).2

/-- C2: a command absent from the project's `commandAllowlist` fails with
`PolicyDenied`, the agent receives a `PolicyDenied` tool result, and no
command is ever dispatched to the container. -/
theorem exec_denied_never_reaches_container
    (runtime : String → CommandResult × Nat) (pol : Policy)
    (command : String) (timeout : Nat)
    (h : pol.commandAllowlist.contains command = false) :
    exec runtime pol command timeout = ⟨.error .policyDenied, .policyDenied, []⟩ := by
  unfold exec
  rw [h]
  simp

/-- Witness for C2: `rm -rf /` is not in the sample allowlist, so `exec`
denies it and dispatches nothing to the container. -/
theorem exec_denied_never_reaches_container_witness :
    exec (fun _ => (⟨"", "", 0⟩, 1)) samplePolicy "rm -rf /" 30 =
      ⟨.error .policyDenied, .policyDenied, []⟩ :=
  exec_denied_never_reaches_container (fun _ => (⟨"", "", 0⟩, 1)) samplePolicy
    "rm -rf /" 30 (by decide)

/-- C4: every transition the SandboxController takes is an edge of the
defined graph (or leaves the state unchanged), `destroyed` is terminal —
no event moves a destroyed Sandbox, and no sequence of lifecycle events
ever leaves `destroyed` — and `error` is reachable from every live state
via a fault. -/
theorem lifecycle_follows_graph :
    (∀ s e s2, lifecycleStep s e = some s2 → graphEdge s s2) ∧
    (∀ e, lifecycleStep .destroyed e = none) ∧
    (∀ s, s ≠ .destroyed → lifecycleStep s .fault = some .error) ∧
    (∀ evs, runEvents .destroyed evs = .destroyed) := by
  refine ⟨?_, ?_, ?_, ?_⟩
  · intro s e s2 h
    cases s <;> cases e <;> simp only [lifecycleStep, Option.some.injEq,
      reduceCtorEq] at h <;> subst h <;> decide
  · intro e
    cases e <;> rfl
  · intro s h
    cases s <;> simp_all [lifecycleStep]
  · intro evs
    induction evs with
    | nil => rfl
    | cons e es ih => cases e <;> simpa [runEvents, lifecycleStep] using ih

/-- Witness for C4: the `provisioning → running` transition is an edge of
the graph; a fault moves a running Sandbox to `error`; a destroyed Sandbox
ignores a whole event sequence. -/
theorem lifecycle_follows_graph_witness :
    graphEdge .provisioning .running ∧
    lifecycleStep .running .fault = some .error ∧
    runEvents .destroyed [.start, .destroy, .fault] = .destroyed :=
  ⟨lifecycle_follows_graph.1 .provisioning .provisionSucceeded .running rfl,
   lifecycle_follows_graph.2.2.1 .running (by decide),
   lifecycle_follows_graph.2.2.2 [.start, .destroy, .fault]⟩

/-- C6: a second `create` call for a Sandbox already in `provisioning` or
`running` fails fast with `AlreadyExists`, leaves the Sandbox's state
unchanged, and issues no container-runtime call (no double-provisioning).
-/
theorem create_on_live_sandbox_alreadyExists (st : SandboxState)
    (h : st = .provisioning ∨ st = .running) :
    (create (some st)).result = .error .alreadyExists ∧
    (create (some st)).newState = some st ∧
    (create (some st)).runtimeCalls = [] := by
  rcases h with h | h <;> subst h <;> exact ⟨rfl, rfl, rfl⟩

/-- Witness for C6: a second `create` on a running Sandbox. -/
theorem create_on_live_sandbox_alreadyExists_witness :
    (create (some .running)).result = .error .alreadyExists ∧
    (create (some .running)).newState = some .running ∧
    (create (some .running)).runtimeCalls = [] :=
  create_on_live_sandbox_alreadyExists .running (.inr rfl)

/-- Against a completion service that always requests tool calls, the loop
ends flagged `loopLimitExceeded` whatever the remaining fuel, round count
and spend are. -/
theorem loopAux_always_toolCalls (svc : Nat → ModelResponse × Nat) (budget : Nat)
    (h : ∀ i, ∃ calls cost, svc i = (.toolCalls calls, cost)) :
    ∀ fuel round spent,
      (loopAux svc budget fuel round spent).ending = .loopLimitExceeded := by
  intro fuel
  induction fuel with
  | zero => intro round spent; rfl
  | succ n ih =>
    intro round spent
    unfold loopAux
    split
    · rfl
    · obtain ⟨calls, cost, hc⟩ := h round
      rw [hc]
      exact ih (round + 1) (spent + cost)

/-- The loop performs at most `fuel` completion rounds beyond the rounds
already counted. -/
theorem loopAux_rounds_le (svc : Nat → ModelResponse × Nat) (budget : Nat) :
    ∀ fuel round spent,
      (loopAux svc budget fuel round spent).rounds ≤ fuel + round := by
  intro fuel
  induction fuel with
  | zero => intro round spent; simp [loopAux]
  | succ n ih =>
    intro round spent
    unfold loopAux
    split
    · show round ≤ n + 1 + round
      omega
    · cases hc : svc round with
      | mk resp cost =>
        cases resp with
        | text s =>
          show round + 1 ≤ n + 1 + round
          omega
        | toolCalls calls =>
          calc (loopAux svc budget n (round + 1) (spent + cost)).rounds
              ≤ n + (round + 1) := ih (round + 1) (spent + cost)
            _ ≤ n + 1 + round := by omega

/-- C3: for every behaviour of the completion service, `runAgentTurn`
performs at most the configured maximum number of tool-call rounds; and
against a scripted service that requests another tool call on every
response, the turn halts flagged `loopLimitExceeded` instead of looping
forever (the token-budget stop yields the same flag). -/
theorem runAgentTurn_hard_stops (svc : Nat → ModelResponse × Nat) (cfg : LoopConfig)
    (h : ∀ i, ∃ calls cost, svc i = (.toolCalls calls, cost)) :
    (∀ s2 : Nat → ModelResponse × Nat,
       (runAgentTurn s2 cfg).rounds ≤ cfg.maxIterations) ∧
    (runAgentTurn svc cfg).ending = .loopLimitExceeded := by
  constructor
  · intro s2
    simpa using loopAux_rounds_le s2 cfg.tokenBudget cfg.maxIterations 0 0
  · exact loopAux_always_toolCalls svc cfg.tokenBudget h cfg.maxIterations 0 0

/-- Witness for C3: a scripted completion service that always requests one
more `run_command` tool call, under a 25-iteration cap: the turn halts
flagged `loopLimitExceeded` within 25 rounds. -/
theorem runAgentTurn_hard_stops_witness :
    (runAgentTurn (fun _ => (.toolCalls ["run_command"], 7)) ⟨25, 10000⟩).rounds ≤ 25 ∧
    (runAgentTurn (fun _ => (.toolCalls ["run_command"], 7)) ⟨25, 10000⟩).ending =
      .loopLimitExceeded :=
  ⟨(runAgentTurn_hard_stops (fun _ => (.toolCalls ["run_command"], 7)) ⟨25, 10000⟩
      (fun _ => ⟨["run_command"], 7, rfl⟩)).1 _,
   (runAgentTurn_hard_stops (fun _ => (.toolCalls ["run_command"], 7)) ⟨25, 10000⟩
      (fun _ => ⟨["run_command"], 7, rfl⟩)).2⟩

/-- One mutating operation appends exactly one entry to the audit log. -/
theorem applyOp_one_entry (runtime : String → CommandResult × Nat) (pol : Policy)
    (st : SandboxState) (actor : String) (now : Nat) (s : CoreState) (op : MutatingOp) :
    ∃ e, (applyOp runtime pol st actor now s op).audit = s.audit ++ [e] := by
  cases op with
  | policyDecision a t => exact ⟨_, rfl⟩
  | fileWrite p c => exact ⟨_, rfl⟩
  | fileDelete p =>
    cases hp : canonicalize p with
    | none =>
      exact ⟨⟨actor, "deleteFile", p, now, "PathViolation"⟩, by simp [applyOp, hp]⟩
    | some cp =>
      exact ⟨⟨actor, "deleteFile", p, now, "ok"⟩, by simp [applyOp, hp]⟩
  | commandRun c => exact ⟨_, rfl⟩
  | gitPush b => exact ⟨_, rfl⟩

/-- C5: every mutating operation (policy decision, file write, file
delete, command execution, git push) produces exactly one `AuditEntry`,
and the audit log is append-only: after any further sequence of
operations the already-recorded entries are still there, unchanged, as a
prefix of the log. -/
theorem audit_append_only (runtime : String → CommandResult × Nat) (pol : Policy)
    (st : SandboxState) (actor : String) (now : Nat) (s : CoreState) (op : MutatingOp) :
    (∃ e, (applyOp runtime pol st actor now s op).audit = s.audit ++ [e]) ∧
    (∀ ops, ∃ tail, (applyOps runtime pol st actor now s ops).audit = s.audit ++ tail) := by
  constructor
  · exact applyOp_one_entry runtime pol st actor now s op
  · intro ops
    induction ops generalizing now s with
    | nil => exact ⟨[], by simp [applyOps]⟩
    | cons o os ih =>
      obtain ⟨e, he⟩ := applyOp_one_entry runtime pol st actor now s o
      obtain ⟨tail, ht⟩ := ih (now + 1) (applyOp runtime pol st actor now s o)
      exact ⟨[e] ++ tail, by simp [applyOps, ht, he]⟩

/-- Looking up a path right after storing content there yields exactly
that content. -/
theorem fsLookup_fsStore (fs : FS) (p : List String) (c : String) :
    fsLookup (fsStore fs p c) p = some c := by
  induction fs with
  | nil => simp [fsStore, fsLookup]
  | cons hd tl ih =>
    obtain ⟨q, d⟩ := hd
    by_cases hq : q = p
    · subst hq; simp [fsStore, fsLookup]
    · simp [fsStore, fsLookup, hq, ih]

/-- C7: on a running Sandbox, a successful `writeFile(path, content)` of
text content followed immediately by `readFile(path)` returns exactly the
written content. -/
theorem write_then_read_roundtrip (pol : Policy) (fs : FS) (path content : String)
    (hbin : isBinary content = false)
    (hw : (runFileOp pol .running fs (.writeFile path content)).result = .ok .wrote) :
    (runFileOp pol .running (runFileOp pol .running fs (.writeFile path content)).fs
        (.readFile path)).result = .ok (.readOut (.text content)) := by
  simp only [runFileOp, FileOp.pathArg] at hw ⊢
  cases hc : canonicalize path with
  | none => simp [hc] at hw
  | some cp =>
    by_cases hs : pol.maxFileSizeBytes < content.length
    · simp [hc, hs] at hw
    · simp [hc, hs, fsLookup_fsStore, hbin] at hw ⊢

/-- Witness for C7: writing `print(1)` to `app.py` in an empty running
workspace succeeds, and reading `app.py` back returns exactly `print(1)`.
-/
theorem write_then_read_roundtrip_witness :
    isBinary "print(1)" = false ∧
    (runFileOp samplePolicy .running [] (.writeFile "app.py" "print(1)")).result =
      .ok .wrote ∧
    (runFileOp samplePolicy .running
        (runFileOp samplePolicy .running [] (.writeFile "app.py" "print(1)")).fs
        (.readFile "app.py")).result = .ok (.readOut (.text "print(1)")) :=
  ⟨rfl, rfl,
   write_then_read_roundtrip samplePolicy [] "app.py" "print(1)" rfl rfl⟩

/-- C8: for every project id and every value of the local message state,
`SandboxPage` renders every `Input` element, and every `Button` containing
the `Send` icon, with the `disabled` attribute set — the chat can never be
submitted, whatever the user types. -/
theorem sandboxPage_chat_always_disabled (id message : String) :
    ((allNodes (SandboxPage id message)).all
      fun n => inputDisabledAt n && sendButtonDisabledAt n) = true := by
  rfl

/-- C9: `DashboardPage` is a constant function of its (empty) props, and
its stats section — the second child of the page — contains exactly the
four fixed cards `Total Incidents (24h)`, `Active Incidents`,
`Resolved (24h)`, `Avg. Resolution Time`, with the constant values
`—`, `0`, `—`, `—`. -/
theorem dashboardPage_constant_stats :
    (∀ u v : Unit, DashboardPage u = DashboardPage v) ∧
    childAt (DashboardPage ()) 1 = some dashboardStatsGrid ∧
    cardTitleTexts dashboardStatsGrid =
      ["Total Incidents (24h)", "Active Incidents",
       "Resolved (24h)", "Avg. Resolution Time"] ∧
    cardValueTexts dashboardStatsGrid = ["—", "0", "—", "—"] :=
  ⟨fun _ _ => rfl, rfl, rfl, rfl⟩

/-- C10: the detail pages splice the route id verbatim into their heading
— `ProjectDetailPage` renders heading text `Project ` followed by `id`,
`IncidentDetailPage` renders `Incident #` followed by `id` — and, with
the heading and the sandbox chat footer slots erased, no remaining part of
any of the three pages depends on `id` (the footer of `SandboxPage` is the
one other id-dependent output). -/
theorem detailPages_splice_id_into_heading (id message : String) :
    headingTexts (ProjectDetailPage id) = ["Project ", id] ∧
    headingTexts (IncidentDetailPage id) = ["Incident #", id] ∧
    stripIdSlots (ProjectDetailPage id) = stripIdSlots (ProjectDetailPage "") ∧
    stripIdSlots (IncidentDetailPage id) = stripIdSlots (IncidentDetailPage "") ∧
    footerTexts (SandboxPage id message) =
      ["Project ", id, " · Start the sandbox to begin chatting"] ∧
    stripIdSlots (SandboxPage id message) = stripIdSlots (SandboxPage "" message) :=
  ⟨rfl, rfl, rfl, rfl, rfl, rfl⟩

end Comio






